import Mathlib

/-!
Shallow embedding of the HazardService core (hazard aggregation and safety
scoring) of the ResQMap repository.

Numeric conventions: JavaScript numbers are modelled by `ℚ` in the discrete
pipeline (all comparisons, thresholds and score arithmetic of the source are
exact over the rationals), and by `ℝ` for the trigonometric Haversine
distance `calculateDistance`.  Where the pipeline consumes the distance
function (annotation, filtering, heatmap) it is abstracted as an explicit
parameter `d : ℚ → ℚ → ℚ → ℚ → ℚ`, so that every proved property holds for
the concrete Haversine instance as well; the real-valued Haversine itself is
embedded separately below.  `Date` instants (milliseconds since epoch) are
modelled by `ℤ`; the source renders an instant as its ISO-8601 string, an
injective function of the instant, so equality of rendered stamps is modelled
by equality of the instants.  A fallible HTTP fetch is modelled by an
`Except String` value standing for the settled axios promise: `.error`
covers network failure, a thrown parse error and a null `data` payload.
-/

namespace ResQMap

/-- JavaScript `Math.round`: round half toward positive infinity. -/
def jsRound (q : ℚ) : ℤ := ⌊q + 1/2⌋

/-- The source's clamp `Math.max(0, Math.min(100, x))`. -/
def clamp0100 (q : ℚ) : ℚ := max 0 (min 100 q)

/-- JavaScript truthiness of an optional number (`undefined`, `null` and `0`
are falsy). -/
def truthyOpt (o : Option ℚ) : Bool :=
  match o with
  | none => false
  | some q => q != 0

/-- Hazard type union from the source (`HazardType`). -/
inductive HazardType
  | earthquake | weather | landslide | flood | fire | other
deriving DecidableEq, Repr

/-- Severity union from the source (`HazardSeverity`). -/
inductive HazardSeverity
  | low | medium | high
deriving DecidableEq, Repr

/-- Numeric rank of a severity, realizing the ordering low < medium < high. -/
def sevRank : HazardSeverity → ℕ
  | .low => 0
  | .medium => 1
  | .high => 2

/-- Per-type detail payload attached to a Hazard (the source stores a
loosely-typed `details` object; each adapter fills one fixed shape). -/
inductive HazardDetails
  | earthquakeD (magnitude : ℚ) (depth : ℚ) (place : String) (url : String)
      (felt : Option ℚ) (tsunami : ℚ)
  | weatherD (condition : String) (description : String) (temperature : ℚ)
      (humidity : ℚ) (pressure : ℚ) (windSpeed : Option ℚ)
      (location : String) (country : String)
  | landslideD (title : String) (sources : String) (categories : String)
      (date : ℤ)
deriving DecidableEq, Repr

/-- The source's `details?.magnitude` access: only the earthquake payload
carries a magnitude. -/
def detailsMagnitude : Option HazardDetails → Option ℚ
  | some (.earthquakeD m _ _ _ _ _) => some m
  | _ => none

/-- The normalized hazard record (`Hazard` interface of the source).
`timestamp` holds the underlying instant in milliseconds; the source stores
its ISO-8601 rendering. -/
structure Hazard where
  id : String
  type : HazardType
  severity : HazardSeverity
  lat : ℚ
  lng : ℚ
  description : String
  timestamp : ℤ
  distance : Option ℚ
  details : Option HazardDetails
deriving DecidableEq, Repr

/-- The processed current-weather object built by `getWeatherData`. -/
structure CurrentWeather where
  temperature : ℚ
  condition : String
  description : String
  windSpeed : ℚ
  rainfall : ℚ
  pressure : ℚ
  humidity : ℚ
  visibility : ℚ
  icon : String
deriving DecidableEq, Repr

/-- One processed forecast entry (`WeatherForecast`); `time` holds the
instant `item.dt * 1000` that the source renders as a locale time string. -/
structure WeatherForecast where
  time : ℤ
  temperature : ℚ
  condition : String
  windSpeed : ℚ
  description : String
deriving DecidableEq, Repr

/-- The `WeatherData` result of `getWeatherData`. -/
structure WeatherData where
  current : CurrentWeather
  forecasts : List WeatherForecast
  warnings : List String
  severity : HazardSeverity
deriving DecidableEq, Repr

/-- The `SafetyScore` result record; the source rounds every field, so the
fields are integers. -/
structure SafetyScore where
  overall : ℤ
  earthquake : ℤ
  weather : ℤ
  landslide : ℤ
  explanation : List String
deriving DecidableEq, Repr

/-- The source's `analyzeWeatherData`: sequential threshold rules, each
triggered rule overwriting `severity` and pushing one warning string. -/
def analyzeWeatherData (c : CurrentWeather) : List String × HazardSeverity :=
  let acc0 : List String × HazardSeverity := ([], .low)
  let acc1 :=
    if c.temperature ≥ 45 then
      (acc0.1 ++ ["Extreme Heat Warning - Heat Wave Conditions"], HazardSeverity.high)
    else if c.temperature ≥ 40 then
      (acc0.1 ++ ["Heat Advisory - High Temperature Alert"], HazardSeverity.medium)
    else acc0
  let acc2 :=
    if c.temperature ≤ 5 then
      (acc1.1 ++ ["Extreme Cold Warning - Cold Wave Conditions"], HazardSeverity.high)
    else if c.temperature ≤ 10 then
      (acc1.1 ++ ["Cold Weather Advisory"], HazardSeverity.medium)
    else acc1
  let acc3 :=
    if c.windSpeed ≥ 20 then
      (acc2.1 ++ ["High Wind Warning"], HazardSeverity.high)
    else if c.windSpeed ≥ 15 then
      (acc2.1 ++ ["Wind Advisory"], HazardSeverity.medium)
    else acc2
  let acc4 :=
    if c.rainfall ≥ 50 then
      (acc3.1 ++ ["Heavy Rainfall Warning - Flood Risk"], HazardSeverity.high)
    else if c.rainfall ≥ 20 then
      (acc3.1 ++ ["Rainfall Advisory"], HazardSeverity.medium)
    else acc3
  let acc5 :=
    if c.visibility < 1 then
      (acc4.1 ++ ["Low Visibility Warning"], HazardSeverity.high)
    else if c.visibility < 2 then
      (acc4.1 ++ ["Reduced Visibility Advisory"], HazardSeverity.medium)
    else acc4
  acc5

/-- One entry of an OpenWeather `weather` array (`main`, `description`,
`icon`). -/
structure OWWeatherEntry where
  main : String
  description : String
  icon : String
deriving DecidableEq, Repr, Inhabited

/-- Payload of the current-weather response consumed by `getWeatherData`
(`main.temp/pressure/humidity`, `weather`, `wind?.speed`, `rain?.1h`,
`visibility` in meters). -/
structure CurrentResponse where
  temp : ℚ
  pressure : ℚ
  humidity : ℚ
  weather : List OWWeatherEntry
  windSpeed : Option ℚ
  rain1h : Option ℚ
  visibility : ℚ
deriving DecidableEq, Repr

/-- One entry of the forecast response `list`. -/
structure ForecastItem where
  dt : ℤ
  temp : ℚ
  weather : List OWWeatherEntry
  windSpeed : Option ℚ
deriving DecidableEq, Repr

/-- Payload of the forecast response consumed by `getWeatherData`. -/
structure ForecastResponse where
  list : List ForecastItem
deriving DecidableEq, Repr

/-- The default `WeatherData` produced by `getWeatherData`'s catch branch. -/
def defaultWeatherData : WeatherData :=
  { current :=
      { temperature := 0
        condition := "Unknown"
        description := "Weather data unavailable"
        windSpeed := 0
        rainfall := 0
        pressure := 0
        humidity := 0
        visibility := 0
        icon := "01d" }
    forecasts := []
    warnings := ["Weather data unavailable"]
    severity := .low }

/-- Happy path of `getWeatherData`: both fetches succeeded; accessing
`weather[0]` of an empty array throws in the source (caught by the handler),
modelled by `head?` propagating `none`. -/
def getWeatherDataCore (cur : Except String CurrentResponse)
    (fc : Except String ForecastResponse) : Option WeatherData := do
  let c ← cur.toOption
  let f ← fc.toOption
  let w0 ← c.weather.head?
  let currentWeather : CurrentWeather :=
    { temperature := c.temp
      condition := w0.main
      description := w0.description
      windSpeed := c.windSpeed.getD 0
      rainfall := c.rain1h.getD 0
      pressure := c.pressure
      humidity := c.humidity
      visibility := c.visibility / 1000
      icon := w0.icon }
  let forecasts ← (f.list.take 8).mapM (fun item => do
    let iw ← item.weather.head?
    pure ({ time := item.dt * 1000
            temperature := item.temp
            condition := iw.main
            windSpeed := item.windSpeed.getD 0
            description := iw.description } : WeatherForecast))
  let ws := analyzeWeatherData currentWeather
  pure { current := currentWeather, forecasts := forecasts,
         warnings := ws.1, severity := ws.2 }

/-- The source's `getWeatherData`: any failure anywhere in the try block is
caught and replaced by `defaultWeatherData`. -/
def getWeatherData (cur : Except String CurrentResponse)
    (fc : Except String ForecastResponse) : WeatherData :=
  (getWeatherDataCore cur fc).getD defaultWeatherData

/-- JavaScript `String.prototype.toLowerCase` for the ASCII condition texts
the pipeline compares (on ASCII strings the JS function is exactly
per-character lowercasing). -/
def asciiToLower (s : String) : String :=
  String.mk (s.data.map (fun c =>
    if 65 ≤ c.toNat && c.toNat ≤ 90 then Char.ofNat (c.toNat + 32) else c))

/-- JavaScript `String.prototype.includes`: substring containment. -/
def strIncl (s sub : String) : Bool :=
  (List.range (s.toList.length + 1)).any
    (fun i => sub.toList.isPrefixOf (s.toList.drop i))

/-- One USGS GeoJSON feature as consumed by `fetchEarthquakes`
(`geometry.coordinates` is `[lng, lat, depth]`, split into fields). -/
structure EqFeature where
  id : String
  mag : ℚ
  place : String
  time : ℤ
  url : String
  felt : Option ℚ
  tsunami : ℚ
  lngC : ℚ
  latC : ℚ
  depthC : ℚ
deriving DecidableEq, Repr

/-- The source's `fetchEarthquakes` on a settled response: network/parse
failure or missing `features` gives `[]`; otherwise each feature is mapped to
a Hazard with severity from magnitude. -/
def fetchEarthquakes (resp : Except String (Option (List EqFeature))) :
    List Hazard :=
  match resp with
  | .error _ => []
  | .ok none => []
  | .ok (some features) =>
    features.map (fun eq =>
      let severity : HazardSeverity :=
        if eq.mag ≥ 6 then .high else if eq.mag ≥ 5 then .medium else .low
      { id := "eq-" ++ eq.id
        type := .earthquake
        severity := severity
        lat := eq.latC
        lng := eq.lngC
        description := "Magnitude " ++ toString eq.mag ++ " earthquake - " ++ eq.place
        timestamp := eq.time
        distance := none
        details := some (.earthquakeD eq.mag eq.depthC eq.place eq.url eq.felt eq.tsunami) })

/-- One nearby-city entry of an OpenWeather `find` response, as consumed by
`fetchWeatherDisasters`. -/
structure CityEntry where
  id : ℤ
  name : String
  lat : ℚ
  lon : ℚ
  weather : List OWWeatherEntry
  temp : ℚ
  humidity : ℚ
  pressure : ℚ
  windSpeed : Option ℚ
  country : String
deriving DecidableEq, Repr

/-- The source's condition filter on `weather[0].main.toLowerCase()`. -/
def weatherCondMatch (m : String) : Bool :=
  let lower := asciiToLower m
  strIncl lower "extreme" || strIncl lower "storm" || strIncl lower "rain" ||
  strIncl lower "snow" || strIncl lower "thunder" || strIncl lower "tornado" ||
  strIncl lower "drizzle" || strIncl lower "mist" || strIncl lower "fog"

/-- The source's severity classification for a weather-disaster condition. -/
def weatherCondSeverity (m : String) : HazardSeverity :=
  let condition := asciiToLower m
  if strIncl condition "extreme" || strIncl condition "tornado" ||
     strIncl condition "hurricane" then .high
  else if strIncl condition "storm" || strIncl condition "thunder" ||
          strIncl condition "heavy" then .medium
  else .low

/-- Build one weather-disaster Hazard from a city entry; `now` is the
`Date.now()` reading, embedded in the id and the timestamp. -/
def mkWeatherHazard (now : ℤ) (city : CityEntry) (w0 : OWWeatherEntry) : Hazard :=
  { id := "weather-" ++ toString city.id ++ "-" ++ toString now
    type := .weather
    severity := weatherCondSeverity w0.main
    lat := city.lat
    lng := city.lon
    description := w0.main ++ " - " ++ w0.description ++ " in " ++ city.name
    timestamp := now
    distance := none
    details := some (.weatherD w0.main w0.description city.temp city.humidity
      city.pressure city.windSpeed city.name city.country) }

/-- One region of `fetchWeatherDisasters`: a failed fetch or missing `list`
contributes nothing; a city with an empty `weather` array makes the filter
callback throw, so the per-region catch drops the whole region. -/
def regionWeatherHazards (now : ℤ)
    (resp : Except String (Option (List CityEntry))) : List Hazard :=
  match resp with
  | .error _ => []
  | .ok none => []
  | .ok (some cities) =>
    if cities.all (fun c => !c.weather.isEmpty) then
      (cities.filter (fun c => weatherCondMatch ((c.weather.headD default).main))).map
        (fun c => mkWeatherHazard now c (c.weather.headD default))
    else []

/-- The source's `fetchWeatherDisasters`: the fixed regions are queried in
order; `resps` lists their settled responses; per-region hazards are
concatenated in order. -/
def fetchWeatherDisasters (now : ℤ)
    (resps : List (Except String (Option (List CityEntry)))) : List Hazard :=
  resps.foldl (fun acc r => acc ++ regionWeatherHazards now r) []

/-- One geometry point of an EONET event (`coordinates` is `[lng, lat]`). -/
structure GeomPoint where
  lngC : ℚ
  latC : ℚ
  date : ℤ
deriving DecidableEq, Repr

/-- One EONET landslide event as consumed by `fetchLandslides`. -/
structure EonetEvent where
  id : String
  title : String
  geometry : List GeomPoint
  sources : String
  categories : String
deriving DecidableEq, Repr

/-- The source's `fetchLandslides`: failure or missing `events` gives `[]`;
events with empty geometry are filtered out, the rest map to Hazards from
their first geometry point (feed order `[lng, lat]` reversed), severity
fixed medium. -/
def fetchLandslides (resp : Except String (Option (List EonetEvent))) :
    List Hazard :=
  match resp with
  | .error _ => []
  | .ok none => []
  | .ok (some events) =>
    events.filterMap (fun event =>
      match event.geometry with
      | [] => none
      | g :: _ =>
        some { id := "landslide-" ++ event.id
               type := .landslide
               severity := HazardSeverity.medium
               lat := g.latC
               lng := g.lngC
               description := event.title
               timestamp := g.date
               distance := none
               details := some (.landslideD event.title event.sources
                 event.categories g.date) })

/-- Sort key of the source's comparator `(a.distance || 0) - (b.distance || 0)`. -/
def distKey (h : Hazard) : ℚ := h.distance.getD 0

/-- Stable insertion of a hazard into an already sorted list: the new element
goes after every element whose key is ≤ its own, matching the stable
`Array.prototype.sort` on the distance comparator. -/
def insertHazard (x : Hazard) : List Hazard → List Hazard
  | [] => [x]
  | b :: bs => if distKey b ≤ distKey x then b :: insertHazard x bs
               else x :: b :: bs

/-- Stable sort by ascending annotated distance (the source's
`.sort((a, b) => (a.distance || 0) - (b.distance || 0))`). -/
def sortHazards (l : List Hazard) : List Hazard :=
  l.foldl (fun acc x => insertHazard x acc) []

/-- The source's `filterHazardsByDistance`, with the distance function
abstracted as `d` (the source passes `calculateDistance`): annotate with the
distance from the reference point, keep those within `radiusKm`, sort
ascending. -/
def filterHazardsByDistance (d : ℚ → ℚ → ℚ → ℚ → ℚ) (hazards : List Hazard)
    (lat lng radiusKm : ℚ) : List Hazard :=
  sortHazards
    (((hazards.map (fun h => { h with distance := some (d lat lng h.lat h.lng) })).filter
      (fun h => h.distance.getD 0 ≤ radiusKm)))

/-- The source's `getHazardsNearLocation`: the three adapters run on their
settled responses, their outputs are concatenated in adapter order and
filtered/sorted by distance from the reference point. -/
def getHazardsNearLocation (d : ℚ → ℚ → ℚ → ℚ → ℚ)
    (eqResp : Except String (Option (List EqFeature)))
    (wResps : List (Except String (Option (List CityEntry))))
    (lsResp : Except String (Option (List EonetEvent)))
    (now : ℤ) (lat lng radiusKm : ℚ) : List Hazard :=
  filterHazardsByDistance d
    (fetchEarthquakes eqResp ++ fetchWeatherDisasters now wResps ++
      fetchLandslides lsResp) lat lng radiusKm

/-- Rendering of a number for an explanation message (the source
interpolates the raw number). -/
def numStr (q : ℚ) : String := toString q

/-- Rendering of `x.toFixed(0)` in an explanation message. -/
def fixed0 (q : ℚ) : String := toString (jsRound q)

/-- The explanation for a major earthquake impact. -/
def majorEqMsg (mag dist : ℚ) : String :=
  "Major earthquake (M" ++ numStr mag ++ ") " ++ fixed0 dist ++ "km away"

/-- The explanation for moderate earthquake activity. -/
def moderateEqMsg (dist : ℚ) : String :=
  "Moderate earthquake activity " ++ fixed0 dist ++ "km away"

/-- The explanation for a landslide risk. -/
def landslideMsg (dist : ℚ) : String :=
  "Landslide risk " ++ fixed0 dist ++ "km away"

/-- The truthiness guard of the earthquake loop:
`if (eq.distance && eq.details?.magnitude)`. -/
def eqGuard (h : Hazard) : Bool :=
  truthyOpt h.distance && truthyOpt (detailsMagnitude h.details)

/-- The per-hazard earthquake impact `(magnitude * 10) / Math.max(distance, 1)`. -/
def eqImpact (h : Hazard) : ℚ :=
  (detailsMagnitude h.details).getD 0 * 10 / max (h.distance.getD 0) 1

/-- One step of the source's earthquake loop over `(score, explanation)`. -/
def earthquakeStep (acc : ℚ × List String) (eq : Hazard) : ℚ × List String :=
  if eqGuard eq then
    let impact := eqImpact eq
    let score := acc.1 - impact
    if impact > 10 then
      (score, acc.2 ++ [majorEqMsg ((detailsMagnitude eq.details).getD 0) (eq.distance.getD 0)])
    else if impact > 5 then
      (score, acc.2 ++ [moderateEqMsg (eq.distance.getD 0)])
    else (score, acc.2)
  else acc

/-- The earthquake section of `calculateSafetyScore`: score starts at 100;
with no nearby earthquakes a fixed explanation is pushed, otherwise the loop
accumulates impacts and messages. -/
def earthquakePart (hazards : List Hazard) : ℚ × List String :=
  let nearbyEarthquakes := hazards.filter (fun h => h.type == HazardType.earthquake)
  if nearbyEarthquakes.isEmpty then
    (100, ["No recent earthquake activity detected"])
  else nearbyEarthquakes.foldl earthquakeStep (100, [])

/-- The weather section of `calculateSafetyScore`: subtract 15 per warning
and push every warning, or push the fixed no-warning explanation. -/
def weatherPart (w : WeatherData) : ℚ × List String :=
  if w.warnings.isEmpty then (100, ["No severe weather warnings"])
  else (100 - w.warnings.length * 15, w.warnings)

/-- One step of the source's landslide loop over `(score, explanation)`. -/
def landslideStep (acc : ℚ × List String) (ls : Hazard) : ℚ × List String :=
  if truthyOpt ls.distance then
    let impact := 100 / max (ls.distance.getD 0) 1
    let score := acc.1 - impact
    if impact > 10 then
      (score, acc.2 ++ [landslideMsg (ls.distance.getD 0)])
    else (score, acc.2)
  else acc

/-- The landslide section of `calculateSafetyScore`. -/
def landslidePart (hazards : List Hazard) : ℚ × List String :=
  let nearbyLandslides := hazards.filter (fun h => h.type == HazardType.landslide)
  if nearbyLandslides.isEmpty then
    (100, ["No landslide activity detected"])
  else nearbyLandslides.foldl landslideStep (100, [])

/-- The clamped (but not yet rounded) sub-scores of the safety computation. -/
def subScores (hazards : List Hazard) (w : WeatherData) : ℚ × ℚ × ℚ :=
  (clamp0100 (earthquakePart hazards).1,
   clamp0100 (weatherPart w).1,
   clamp0100 (landslidePart hazards).1)

/-- The source's overall formula
`Math.round(e * 0.4 + w * 0.4 + l * 0.2)`. -/
def overallFormula (e w l : ℚ) : ℤ :=
  jsRound (e * 0.4 + w * 0.4 + l * 0.2)

/-- The pure body of `calculateSafetyScore` after both fetches have been
performed: section scores, shared explanation list in push order, clamping,
rounding. -/
def computeSafetyScore (hazards : List Hazard) (w : WeatherData) : SafetyScore :=
  let eqPart := earthquakePart hazards
  let wPart := weatherPart w
  let lsPart := landslidePart hazards
  let earthquakeScore := clamp0100 eqPart.1
  let weatherScore := clamp0100 wPart.1
  let landslideScore := clamp0100 lsPart.1
  { overall := overallFormula earthquakeScore weatherScore landslideScore
    earthquake := jsRound earthquakeScore
    weather := jsRound weatherScore
    landslide := jsRound landslideScore
    explanation := eqPart.2 ++ wPart.2 ++ lsPart.2 }

/-- The neutral default score of the source's top-level catch branch. -/
def neutralDefaultScore : SafetyScore :=
  { overall := 50, earthquake := 50, weather := 50, landslide := 50,
    explanation := ["Error calculating safety score"] }

/-- The source's `calculateSafetyScore`: hazards within a 200 km radius and
the weather snapshot are fetched, then the pure scoring body runs.  Every
inner fetch absorbs its own failures (the adapters return `[]`,
`getWeatherData` returns its default), and the scoring body is total, so the
top-level catch branch producing `neutralDefaultScore` is unreachable in
this model. -/
def calculateSafetyScore (d : ℚ → ℚ → ℚ → ℚ → ℚ)
    (eqResp : Except String (Option (List EqFeature)))
    (wResps : List (Except String (Option (List CityEntry))))
    (lsResp : Except String (Option (List EonetEvent)))
    (now : ℤ)
    (cur : Except String CurrentResponse)
    (fc : Except String ForecastResponse)
    (lat lng : ℚ) : SafetyScore :=
  computeSafetyScore
    (getHazardsNearLocation d eqResp wResps lsResp now lat lng 200)
    (getWeatherData cur fc)

/-- Exact model of a JavaScript `for (v = lo; v <= hi; v += step)` loop with
positive rational step: the values `lo + k * step` for `k = 0, …, ⌊(hi - lo)/step⌋`. -/
def floatRange (lo hi step : ℚ) : List ℚ :=
  (List.range (Int.toNat (⌊(hi - lo) / step⌋ + 1))).map
    (fun i : ℕ => lo + step * (i : ℚ))

/-- The latitude samples of `getHeatmapData`: fixed step `0.5`, half-range
`radiusKm / 111`. -/
def heatmapLats (centerLat radiusKm : ℚ) : List ℚ :=
  floatRange (centerLat - radiusKm / 111) (centerLat + radiusKm / 111) (1/2)

/-- The longitude samples of `getHeatmapData`: fixed step `0.5`, half-range
`radiusKm / (111 * cos(centerLat·π/180))`; `cosd` abstracts the cosine of a
latitude given in degrees. -/
def heatmapLngs (cosd : ℚ → ℚ) (centerLat centerLng radiusKm : ℚ) : List ℚ :=
  floatRange (centerLng - radiusKm / (111 * cosd centerLat))
    (centerLng + radiusKm / (111 * cosd centerLat)) (1/2)

/-- The heatmap clamp `Math.min(100, Math.max(0, x))`. -/
def heatClamp (q : ℚ) : ℚ := min 100 (max 0 q)

/-- The grid points of `getHeatmapData` that survive the radius check
(outer loop latitude, inner loop longitude). -/
def heatmapPoints (d : ℚ → ℚ → ℚ → ℚ → ℚ) (cosd : ℚ → ℚ)
    (centerLat centerLng radiusKm : ℚ) : List (ℚ × ℚ) :=
  (heatmapLats centerLat radiusKm).flatMap (fun la =>
    (heatmapLngs cosd centerLat centerLng radiusKm).filterMap (fun ln =>
      if d centerLat centerLng la ln ≤ radiusKm then some (la, ln) else none))

/-- The source's `getHeatmapData`: for each surviving grid point, intensity
`clamp(100 - distance/radius·100 + (random·30 - 15), 0, 100)`.  `noise k` is
the `Math.random()` draw of the k-th point of the second loop. -/
def getHeatmapData (d : ℚ → ℚ → ℚ → ℚ → ℚ) (cosd : ℚ → ℚ) (noise : ℕ → ℚ)
    (centerLat centerLng radiusKm : ℚ) : List (ℚ × ℚ × ℚ) :=
  (heatmapPoints d cosd centerLat centerLng radiusKm).enum.map (fun p =>
    (p.2.1, p.2.2,
      heatClamp (100 - (d centerLat centerLng p.2.1 p.2.2 / radiusKm * 100) +
        (noise p.1 * 30 - 15))))

/-- JavaScript `Math.atan2` over the reals (the IEEE special cases at zero
arguments included). -/
noncomputable def atan2 (y x : ℝ) : ℝ :=
  if 0 < x then Real.arctan (y / x)
  else if x < 0 ∧ 0 ≤ y then Real.arctan (y / x) + Real.pi
  else if x < 0 ∧ y < 0 then Real.arctan (y / x) - Real.pi
  else if x = 0 ∧ 0 < y then Real.pi / 2
  else if x = 0 ∧ y < 0 then -(Real.pi / 2)
  else 0

/-- The source's `calculateDistance`: Haversine great-circle distance in
kilometers with Earth radius 6371 km, over the reals. -/
noncomputable def calculateDistance (lat1 lng1 lat2 lng2 : ℝ) : ℝ :=
  let r : ℝ := 6371
  let dLat := (lat2 - lat1) * Real.pi / 180
  let dLng := (lng2 - lng1) * Real.pi / 180
  let a := Real.sin (dLat / 2) * Real.sin (dLat / 2) +
    Real.cos (lat1 * Real.pi / 180) * Real.cos (lat2 * Real.pi / 180) *
    Real.sin (dLng / 2) * Real.sin (dLng / 2)
  let c := 2 * atan2 (Real.sqrt a) (Real.sqrt (1 - a))
  r * c

/-- Sortedness by ascending annotated distance. -/
def sortedByDist (l : List Hazard) : Prop :=
  l.Pairwise (fun a b => distKey a ≤ distKey b)

/-- The warning strings of the triggered analyzer rules, one per rule, in
evaluation order. -/
def triggeredWarnings (c : CurrentWeather) : List String :=
  (if c.temperature ≥ 45 then ["Extreme Heat Warning - Heat Wave Conditions"]
   else if c.temperature ≥ 40 then ["Heat Advisory - High Temperature Alert"]
   else []) ++
  (if c.temperature ≤ 5 then ["Extreme Cold Warning - Cold Wave Conditions"]
   else if c.temperature ≤ 10 then ["Cold Weather Advisory"]
   else []) ++
  (if c.windSpeed ≥ 20 then ["High Wind Warning"]
   else if c.windSpeed ≥ 15 then ["Wind Advisory"]
   else []) ++
  (if c.rainfall ≥ 50 then ["Heavy Rainfall Warning - Flood Risk"]
   else if c.rainfall ≥ 20 then ["Rainfall Advisory"]
   else []) ++
  (if c.visibility < 1 then ["Low Visibility Warning"]
   else if c.visibility < 2 then ["Reduced Visibility Advisory"]
   else [])

/-- The severities of the triggered analyzer rules, in evaluation order. -/
def triggeredSevs (c : CurrentWeather) : List HazardSeverity :=
  (if c.temperature ≥ 45 then [HazardSeverity.high]
   else if c.temperature ≥ 40 then [HazardSeverity.medium]
   else []) ++
  (if c.temperature ≤ 5 then [HazardSeverity.high]
   else if c.temperature ≤ 10 then [HazardSeverity.medium]
   else []) ++
  (if c.windSpeed ≥ 20 then [HazardSeverity.high]
   else if c.windSpeed ≥ 15 then [HazardSeverity.medium]
   else []) ++
  (if c.rainfall ≥ 50 then [HazardSeverity.high]
   else if c.rainfall ≥ 20 then [HazardSeverity.medium]
   else []) ++
  (if c.visibility < 1 then [HazardSeverity.high]
   else if c.visibility < 2 then [HazardSeverity.medium]
   else [])

/-- Modelled from the spec: "the maximum severity over all triggered rules
(with low < medium < high)" — the claimed severity result of the analyzer. -/
def specMaxSeverity (c : CurrentWeather) : HazardSeverity :=
  (triggeredSevs c).foldl (fun a s => if sevRank a ≤ sevRank s then s else a)
    HazardSeverity.low

/-- Modelled from the spec: the claimed earthquake guard — "every earthquake
hazard … that has a known distance and a known magnitude" (presence, with no
exclusion of zero values). -/
def specEqKnown (h : Hazard) : Bool :=
  h.distance.isSome && (detailsMagnitude h.details).isSome

/-- Modelled from the spec: the claimed earthquake sub-score — 100 minus the
sum of `impact = magnitude·10 / max(distance, 1)` over every earthquake
hazard with known distance and magnitude. -/
def specEqScore (hazards : List Hazard) : ℚ :=
  100 - (((hazards.filter (fun h => h.type == HazardType.earthquake)).filter
    specEqKnown).map eqImpact).sum

/-- Modelled from the spec: the claimed longitude grid step, "corrected by
cos(latitude)" — `0.5 / cos(lat·π/180)` with the cosine abstracted as
`cosd`. -/
def specLngStep (cosd : ℚ → ℚ) (lat : ℚ) : ℚ := (1/2) / cosd lat

/-- Erase exactly the fields the weather adapter stamps with the call's
clock reading: on a weather-type hazard, blank `id` and `timestamp`; every
other hazard is returned unchanged.  Equality of two results after mapping
this function therefore asserts full field-for-field equality of all
earthquake- and landslide-type hazards, and equality of weather-type hazards
in every field except `id` and `timestamp`. -/
def eraseVolatile (h : Hazard) : Hazard :=
  if h.type == HazardType.weather then { h with id := "", timestamp := 0 }
  else h

/-- A concrete distance stand-in used for closed evaluations; it agrees with
the Haversine distance on coincident points, the only inputs the closed
counterexamples feed it. -/
def dZero : ℚ → ℚ → ℚ → ℚ → ℚ := fun _ _ _ _ => 0

/-- A concrete nearby-city entry whose condition text matches the weather
disaster filter (`Rain`). -/
def rainCity : CityEntry :=
  { id := 7, name := "Testville", lat := 0, lon := 0,
    weather := [{ main := "Rain", description := "light rain", icon := "10d" }],
    temp := 25, humidity := 80, pressure := 1012, windSpeed := some 3,
    country := "IN" }

/-- A concrete earthquake hazard whose annotated distance is 1 km and whose
magnitude is 9.87, driving the earthquake sub-score to the fractional value
1.3. -/
def fracEqHazard : Hazard :=
  { id := "eq-x", type := .earthquake, severity := .high, lat := 0, lng := 0,
    description := "test", timestamp := 0, distance := some 1,
    details := some (.earthquakeD (987/100) 10 "p" "u" none 0) }

/-- A concrete earthquake hazard sitting exactly at the reference point:
annotated distance 0 (a falsy value in JavaScript), known magnitude 8. -/
def zeroDistEqHazard : Hazard :=
  { id := "eq-z", type := .earthquake, severity := .high, lat := 0, lng := 0,
    description := "test", timestamp := 0, distance := some 0,
    details := some (.earthquakeD 8 10 "p" "u" none 0) }

/-- A weather report with no warnings, for closed scoring evaluations. -/
def calmWeather : WeatherData :=
  { current :=
      { temperature := 20, condition := "Clear", description := "clear sky",
        windSpeed := 5, rainfall := 0, pressure := 1012, humidity := 40,
        visibility := 10, icon := "01d" }
    forecasts := [], warnings := [], severity := .low }

/-- The current-weather conditions of the first analyzer example
(temperature 46, wind 5, rainfall 0, visibility 10). -/
def hotConditions : CurrentWeather :=
  { temperature := 46, condition := "Clear", description := "hot",
    windSpeed := 5, rainfall := 0, pressure := 1010, humidity := 20,
    visibility := 10, icon := "01d" }

/-- The current-weather conditions of the second analyzer example
(temperature 20, wind 5, rainfall 0, visibility 10). -/
def mildConditions : CurrentWeather :=
  { temperature := 20, condition := "Clear", description := "mild",
    windSpeed := 5, rainfall := 0, pressure := 1010, humidity := 40,
    visibility := 10, icon := "01d" }

/-- Conditions triggering the heat rule (high) and then the wind rule
(medium): temperature 46, wind 15. -/
def hotWindyConditions : CurrentWeather :=
  { temperature := 46, condition := "Clear", description := "hot windy",
    windSpeed := 15, rainfall := 0, pressure := 1010, humidity := 20,
    visibility := 10, icon := "01d" }

/-- The explanation message (if any) contributed by one earthquake hazard:
the truthiness guard must pass, and the message depends on the impact
bracket. -/
def eqMsgOf (h : Hazard) : Option String :=
  if eqGuard h then
    if eqImpact h > 10 then
      some (majorEqMsg ((detailsMagnitude h.details).getD 0) (h.distance.getD 0))
    else if eqImpact h > 5 then some (moderateEqMsg (h.distance.getD 0))
    else none
  else none

theorem regionWeatherHazards_error (t : ℤ) (e : String) :
    regionWeatherHazards t (Except.error e) = [] := rfl

theorem fetchWeatherDisasters_foldl_error (t : ℤ) (es : List String)
    (acc : List Hazard) :
    (es.map Except.error).foldl
      (fun acc r => acc ++ regionWeatherHazards t r) acc = acc := by
  induction es generalizing acc with
  | nil => rfl
  | cons e es ih => simpa [regionWeatherHazards] using ih acc

theorem fetchWeatherDisasters_all_error (t : ℤ) (es : List String) :
    fetchWeatherDisasters t (es.map Except.error) = [] :=
  fetchWeatherDisasters_foldl_error t es []

/-- C8: no source adapter ever throws to its caller; on a failed fetch each
adapter absorbs the error and returns the empty list (for the weather
adapter: every one of its per-region fetches failing yields the empty list),
so the aggregation pipeline continues.  In this embedding the adapters are
total functions into `List Hazard`, which is how "never throws" is
rendered. -/
theorem adapters_absorb_failures (e : String) (t : ℤ) (es : List String) :
    fetchEarthquakes (Except.error e) = [] ∧
    fetchWeatherDisasters t (es.map Except.error) = [] ∧
    fetchLandslides (Except.error e) = [] :=
  ⟨rfl, fetchWeatherDisasters_all_error t es, rfl⟩

theorem allFail_eval (d : ℚ → ℚ → ℚ → ℚ → ℚ) (e1 : String) (es : List String)
    (e3 e4 e5 : String) (t : ℤ) (lat lng : ℚ) :
    calculateSafetyScore d (Except.error e1) (es.map Except.error)
      (Except.error e3) t (Except.error e4) (Except.error e5) lat lng =
      { overall := 94, earthquake := 100, weather := 85, landslide := 100,
        explanation := ["No recent earthquake activity detected",
          "Weather data unavailable", "No landslide activity detected"] } := by
  unfold calculateSafetyScore getHazardsNearLocation
  rw [show fetchEarthquakes (Except.error e1) = [] from rfl,
    fetchWeatherDisasters_all_error,
    show fetchLandslides (Except.error e3) = [] from rfl,
    show filterHazardsByDistance d ([] ++ [] ++ []) lat lng 200 = [] from rfl,
    show getWeatherData (Except.error e4) (Except.error e5) =
      defaultWeatherData from rfl]
  unfold computeSafetyScore earthquakePart weatherPart landslidePart
  norm_num [clamp0100, overallFormula, jsRound, defaultWeatherData]

/-- C1 (counterexample): with every upstream fetch failing, the score
returned by `calculateSafetyScore` is not the neutral default
`{50, 50, 50, 50, ["Error calculating safety score"]}` — the inner handlers
absorb the failures before the top-level catch can fire. -/
theorem calculateSafetyScore_all_fail_not_neutral :
    calculateSafetyScore dZero (Except.error "e")
      (List.replicate 8 (Except.error "e")) (Except.error "e") 0
      (Except.error "e") (Except.error "e") 0 0 ≠ neutralDefaultScore := by
  rw [show (List.replicate 8 (Except.error "e" :
      Except String (Option (List CityEntry)))) =
    (List.replicate 8 "e").map Except.error from rfl]
  rw [allFail_eval]
  decide

/-- C1 (amended): if every upstream fetch (earthquake, weather-disaster,
landslide adapters and the weather-snapshot fetch) fails, then
`calculateSafetyScore` returns the degraded score
`{overall 94, earthquake 100, weather 85, landslide 100}` with the three
no-data explanations — not the neutral default, which is reserved for an
exception escaping the inner handlers, and no exception propagates to the
caller (the pipeline is a total function). -/
theorem calculateSafetyScore_all_fetches_fail (d : ℚ → ℚ → ℚ → ℚ → ℚ)
    (e1 : String) (es : List String) (e3 e4 e5 : String) (t : ℤ)
    (lat lng : ℚ) :
    calculateSafetyScore d (Except.error e1) (es.map Except.error)
      (Except.error e3) t (Except.error e4) (Except.error e5) lat lng =
      { overall := 94, earthquake := 100, weather := 85, landslide := 100,
        explanation := ["No recent earthquake activity detected",
          "Weather data unavailable", "No landslide activity detected"] } :=
  allFail_eval d e1 es e3 e4 e5 t lat lng

/-- C10: when the weather-snapshot fetch fails, `getWeatherData` returns the
fixed default whose warnings list is exactly `["Weather data unavailable"]`
with severity low and an all-zero current snapshot; consequently, inside
`calculateSafetyScore` a weather-feed outage makes the weather sub-score 85
(one warning times −15) regardless of the other feeds — not 100 and not the
neutral 50. -/
theorem getWeatherData_outage (e : String) (fc : Except String ForecastResponse)
    (d : ℚ → ℚ → ℚ → ℚ → ℚ)
    (eqResp : Except String (Option (List EqFeature)))
    (wResps : List (Except String (Option (List CityEntry))))
    (lsResp : Except String (Option (List EonetEvent)))
    (t : ℤ) (lat lng : ℚ) :
    getWeatherData (Except.error e) fc = defaultWeatherData ∧
    defaultWeatherData.warnings = ["Weather data unavailable"] ∧
    defaultWeatherData.severity = HazardSeverity.low ∧
    defaultWeatherData.current.temperature = 0 ∧
    defaultWeatherData.current.windSpeed = 0 ∧
    defaultWeatherData.current.rainfall = 0 ∧
    defaultWeatherData.current.pressure = 0 ∧
    defaultWeatherData.current.humidity = 0 ∧
    defaultWeatherData.current.visibility = 0 ∧
    (calculateSafetyScore d eqResp wResps lsResp t (Except.error e) fc
      lat lng).weather = 85 ∧ (85 : ℤ) ≠ 100 ∧ (85 : ℤ) ≠ 50 := by
  refine ⟨rfl, rfl, rfl, rfl, rfl, rfl, rfl, rfl, rfl, ?_, by decide, by decide⟩
  show jsRound (clamp0100 (weatherPart (getWeatherData (Except.error e) fc)).1) = 85
  rw [show getWeatherData (Except.error e) fc = defaultWeatherData from rfl]
  norm_num [weatherPart, defaultWeatherData, clamp0100, jsRound]

/-- C2 (counterexample): the analyzer's severity is not the maximum over the
triggered rules: at temperature 46 and wind speed 15 (rainfall 0,
visibility 10) the heat rule sets severity high but the later wind rule
overwrites it with medium, while the claimed maximum is high. -/
theorem analyzeWeatherData_not_max :
    (analyzeWeatherData hotWindyConditions).2 = HazardSeverity.medium ∧
    specMaxSeverity hotWindyConditions = HazardSeverity.high ∧
    (analyzeWeatherData hotWindyConditions).2 ≠
      specMaxSeverity hotWindyConditions := by
  have h1 : (analyzeWeatherData hotWindyConditions).2 = HazardSeverity.medium := by
    norm_num [analyzeWeatherData, hotWindyConditions]
  have h2 : specMaxSeverity hotWindyConditions = HazardSeverity.high := by
    norm_num [specMaxSeverity, triggeredSevs, sevRank, hotWindyConditions]
  refine ⟨h1, h2, ?_⟩
  rw [h1, h2]
  decide

set_option maxHeartbeats 2000000 in
/-- C2 (amended): for every `WeatherSnapshot` the analyzer evaluates the
five independent, non-exclusive threshold rules, returns exactly one warning
string per triggered rule (in evaluation order), and returns as severity the
severity assigned by the last triggered rule in the fixed evaluation order
(high temperature, low temperature, wind, rainfall, visibility) — low if no
rule triggers — which need not be the maximum over the triggered rules; the
two concrete examples of the claim hold as stated. -/
theorem analyzeWeatherData_rules (c : CurrentWeather) :
    analyzeWeatherData c =
      (triggeredWarnings c, (triggeredSevs c).getLastD HazardSeverity.low) ∧
    (triggeredWarnings c).length = (triggeredSevs c).length ∧
    analyzeWeatherData hotConditions =
      (["Extreme Heat Warning - Heat Wave Conditions"], HazardSeverity.high) ∧
    analyzeWeatherData mildConditions = ([], HazardSeverity.low) := by
  refine ⟨?_, ?_, ?_, ?_⟩
  · unfold analyzeWeatherData triggeredWarnings triggeredSevs
    split_ifs <;> rfl
  · unfold triggeredWarnings triggeredSevs
    split_ifs <;> rfl
  · norm_num [analyzeWeatherData, hotConditions]
  · norm_num [analyzeWeatherData, mildConditions]

theorem clamp0100_mem (q : ℚ) : 0 ≤ clamp0100 q ∧ clamp0100 q ≤ 100 :=
  ⟨le_max_left 0 _, max_le (by norm_num) (min_le_left 100 q)⟩

theorem jsRound_mem (q : ℚ) (h0 : 0 ≤ q) (h1 : q ≤ 100) :
    0 ≤ jsRound q ∧ jsRound q ≤ 100 := by
  constructor
  · unfold jsRound
    exact Int.le_floor.mpr (by push_cast; linarith)
  · have h : jsRound q < 101 := by
      unfold jsRound
      exact Int.floor_lt.mpr (by push_cast; linarith)
    omega

/-- C3 (amended): every `SafetyScore` produced by the scoring body satisfies
`overall = round(0.4·E + 0.4·W + 0.2·L)` where `E`, `W`, `L` are the clamped
sub-scores before the final per-field rounding (the returned
earthquake/weather/landslide fields are `round(E)`, `round(W)`, `round(L)`,
so the invariant read over the rounded returned fields can be off by one);
all four returned fields lie in `[0, 100]`, and sub-scores 80, 60, 100 yield
overall 76. -/
theorem safetyScore_invariant (hazards : List Hazard) (w : WeatherData) :
    (computeSafetyScore hazards w).overall =
      overallFormula (subScores hazards w).1 (subScores hazards w).2.1
        (subScores hazards w).2.2 ∧
    (computeSafetyScore hazards w).earthquake = jsRound (subScores hazards w).1 ∧
    (computeSafetyScore hazards w).weather = jsRound (subScores hazards w).2.1 ∧
    (computeSafetyScore hazards w).landslide = jsRound (subScores hazards w).2.2 ∧
    (0 ≤ (computeSafetyScore hazards w).overall ∧
      (computeSafetyScore hazards w).overall ≤ 100) ∧
    (0 ≤ (computeSafetyScore hazards w).earthquake ∧
      (computeSafetyScore hazards w).earthquake ≤ 100) ∧
    (0 ≤ (computeSafetyScore hazards w).weather ∧
      (computeSafetyScore hazards w).weather ≤ 100) ∧
    (0 ≤ (computeSafetyScore hazards w).landslide ∧
      (computeSafetyScore hazards w).landslide ≤ 100) ∧
    overallFormula 80 60 100 = 76 := by
  obtain ⟨he0, he1⟩ := clamp0100_mem (earthquakePart hazards).1
  obtain ⟨hw0, hw1⟩ := clamp0100_mem (weatherPart w).1
  obtain ⟨hl0, hl1⟩ := clamp0100_mem (landslidePart hazards).1
  refine ⟨rfl, rfl, rfl, rfl, ?_, ?_, ?_, ?_, ?_⟩
  · exact jsRound_mem _ (by linarith) (by linarith)
  · exact jsRound_mem _ he0 he1
  · exact jsRound_mem _ hw0 hw1
  · exact jsRound_mem _ hl0 hl1
  · norm_num [overallFormula, jsRound]

/-- C3 (counterexample): with one earthquake hazard at distance 1 km and
magnitude 9.87 the clamped earthquake sub-score is 1.3: the returned record
has overall 61 but the claimed invariant over the returned (rounded) fields
demands `round(0.4·1 + 0.4·100 + 0.2·100) = 60`. -/
theorem safetyScore_rounded_fields_ce :
    (computeSafetyScore [fracEqHazard] calmWeather).overall = 61 ∧
    (computeSafetyScore [fracEqHazard] calmWeather).earthquake = 1 ∧
    (computeSafetyScore [fracEqHazard] calmWeather).weather = 100 ∧
    (computeSafetyScore [fracEqHazard] calmWeather).landslide = 100 ∧
    overallFormula 1 100 100 = 60 ∧
    (computeSafetyScore [fracEqHazard] calmWeather).overall ≠
      overallFormula 1 100 100 := by
  have hpart : earthquakePart [fracEqHazard] =
      (13/10, [majorEqMsg (987/100) 1]) := by
    norm_num [earthquakePart, fracEqHazard, List.filter, earthquakeStep,
      eqGuard, eqImpact, truthyOpt, detailsMagnitude, Bool.and_eq_true,
      bne_iff_ne]
  have hbeq : (HazardType.earthquake == HazardType.landslide) = false := rfl
  have hws : weatherPart calmWeather = (100, ["No severe weather warnings"]) := by
    norm_num [weatherPart, calmWeather]
  have hls : landslidePart [fracEqHazard] =
      (100, ["No landslide activity detected"]) := by
    norm_num [landslidePart, fracEqHazard, List.filter, hbeq]
  have hov : overallFormula 1 100 100 = 60 := by
    norm_num [overallFormula, jsRound]
  have h61 : (computeSafetyScore [fracEqHazard] calmWeather).overall = 61 := by
    simp only [computeSafetyScore, hpart, hws, hls]
    norm_num [clamp0100, overallFormula, jsRound, min_def, max_def]
  refine ⟨h61, ?_, ?_, ?_, hov, by rw [h61, hov]; decide⟩ <;>
    simp only [computeSafetyScore, hpart, hws, hls] <;>
    norm_num [clamp0100, jsRound, min_def, max_def]

theorem foldl_earthquakeStep (l : List Hazard) (s : ℚ) (m : List String) :
    l.foldl earthquakeStep (s, m) =
      (s - ((l.filter eqGuard).map eqImpact).sum, m ++ l.filterMap eqMsgOf) := by
  induction l generalizing s m with
  | nil => simp
  | cons h t ih =>
    by_cases hg : eqGuard h
    · by_cases h10 : eqImpact h > 10
      · simp [List.foldl_cons, earthquakeStep, hg, h10, ih, List.filter_cons,
          List.filterMap_cons, eqMsgOf, sub_sub]
      · by_cases h5 : eqImpact h > 5
        · simp [List.foldl_cons, earthquakeStep, hg, h10, h5, ih,
            List.filter_cons, List.filterMap_cons, eqMsgOf, sub_sub]
        · simp [List.foldl_cons, earthquakeStep, hg, h10, h5, ih,
            List.filter_cons, List.filterMap_cons, eqMsgOf, sub_sub]
    · simp [List.foldl_cons, earthquakeStep, hg, ih, List.filter_cons,
        List.filterMap_cons, eqMsgOf]

/-- C4 (amended): the earthquake sub-score starts at 100 and, for every
earthquake hazard in the result set whose distance and magnitude are present
and nonzero (the source's JavaScript truthiness guard skips a distance of 0
or a magnitude of 0), is decreased by `impact = magnitude·10/max(distance,1)`;
the impacts accumulate additively with no per-hazard cap, and one explanation
is contributed per guarded hazard: "major earthquake" exactly when
`impact > 10`, "moderate earthquake activity" exactly when `5 < impact ≤ 10`. -/
theorem earthquake_accumulation (hazards : List Hazard) :
    (earthquakePart hazards).1 =
      100 - (((hazards.filter (fun h => h.type == HazardType.earthquake)).filter
        eqGuard).map eqImpact).sum ∧
    (earthquakePart hazards).2 =
      (if (hazards.filter (fun h => h.type == HazardType.earthquake)).isEmpty
       then ["No recent earthquake activity detected"]
       else (hazards.filter
         (fun h => h.type == HazardType.earthquake)).filterMap eqMsgOf) := by
  unfold earthquakePart
  by_cases he : (hazards.filter (fun h => h.type == HazardType.earthquake)).isEmpty
  · have hnil : hazards.filter (fun h => h.type == HazardType.earthquake) = [] := by
      simpa [List.isEmpty_iff] using he
    simp [he, hnil]
  · simp [he, foldl_earthquakeStep]

/-- C4 (counterexample): an earthquake hazard sitting at the reference point
has known distance 0 and known magnitude 8; the claim demands the sub-score
`100 - 8·10/max(0,1) = 20`, but the source's truthiness guard skips the
hazard and leaves the sub-score at 100. -/
theorem earthquake_truthiness_ce :
    (earthquakePart [zeroDistEqHazard]).1 = 100 ∧
    specEqScore [zeroDistEqHazard] = 20 ∧
    (earthquakePart [zeroDistEqHazard]).1 ≠ specEqScore [zeroDistEqHazard] := by
  have h1 : (earthquakePart [zeroDistEqHazard]).1 = 100 := by
    norm_num [earthquakePart, zeroDistEqHazard, List.filter, earthquakeStep,
      eqGuard, truthyOpt, detailsMagnitude, Bool.and_eq_true, bne_iff_ne]
  have h2 : specEqScore [zeroDistEqHazard] = 20 := by
    norm_num [specEqScore, zeroDistEqHazard, List.filter, specEqKnown,
      eqImpact, detailsMagnitude, max_def]
  exact ⟨h1, h2, by rw [h1, h2]; norm_num⟩

theorem insertHazard_perm (x : Hazard) (l : List Hazard) :
    List.Perm (insertHazard x l) (x :: l) := by
  induction l with
  | nil => simp [insertHazard]
  | cons b bs ih =>
    unfold insertHazard
    by_cases h : distKey b ≤ distKey x
    · rw [if_pos h]
      exact (ih.cons b).trans (List.Perm.swap x b bs)
    · rw [if_neg h]

theorem mem_insertHazard {y x : Hazard} {l : List Hazard} :
    y ∈ insertHazard x l ↔ y = x ∨ y ∈ l := by
  rw [(insertHazard_perm x l).mem_iff, List.mem_cons]

theorem insertHazard_sorted {l : List Hazard} (hl : sortedByDist l)
    (x : Hazard) : sortedByDist (insertHazard x l) := by
  induction l with
  | nil => simp [insertHazard, sortedByDist]
  | cons b bs ih =>
    obtain ⟨hb, hbs⟩ := List.pairwise_cons.mp hl
    unfold insertHazard
    by_cases h : distKey b ≤ distKey x
    · rw [if_pos h]
      refine List.pairwise_cons.mpr ⟨?_, ih hbs⟩
      intro y hy
      rcases mem_insertHazard.mp hy with rfl | hy
      · exact h
      · exact hb y hy
    · rw [if_neg h]
      push_neg at h
      refine List.pairwise_cons.mpr ⟨?_, hl⟩
      intro y hy
      rcases List.mem_cons.mp hy with rfl | hy
      · exact le_of_lt h
      · exact le_of_lt (lt_of_lt_of_le h (hb y hy))

theorem foldl_insertHazard_perm (l acc : List Hazard) :
    List.Perm (l.foldl (fun acc x => insertHazard x acc) acc) (acc ++ l) := by
  induction l generalizing acc with
  | nil => simp
  | cons x xs ih =>
    have h1 : List.Perm
        (xs.foldl (fun acc x => insertHazard x acc) (insertHazard x acc))
        (insertHazard x acc ++ xs) := ih (insertHazard x acc)
    have h2 : List.Perm (insertHazard x acc ++ xs) ((x :: acc) ++ xs) :=
      (insertHazard_perm x acc).append_right xs
    have h3 : List.Perm ((x :: acc) ++ xs) (acc ++ x :: xs) :=
      List.perm_middle.symm
    exact (h1.trans h2).trans h3

theorem sortHazards_perm (l : List Hazard) : List.Perm (sortHazards l) l :=
  foldl_insertHazard_perm l []

theorem foldl_insertHazard_sorted (l : List Hazard) {acc : List Hazard}
    (hacc : sortedByDist acc) :
    sortedByDist (l.foldl (fun acc x => insertHazard x acc) acc) := by
  induction l generalizing acc with
  | nil => exact hacc
  | cons x xs ih => exact ih (insertHazard_sorted hacc x)

theorem sortHazards_sorted (l : List Hazard) : sortedByDist (sortHazards l) :=
  foldl_insertHazard_sorted l (List.Pairwise.nil)

/-- C5: for every list of hazards, reference point and radius (and every
distance function `d` — in the source, the Haversine `calculateDistance`),
`filterHazardsByDistance` annotates each returned hazard with its distance
from the reference point, returns only hazards whose annotated distance is
at most `radiusKm`, and the returned list is sorted ascending by that
distance. -/
theorem filterByDistance_spec (d : ℚ → ℚ → ℚ → ℚ → ℚ) (hazards : List Hazard)
    (lat lng radiusKm : ℚ) :
    (filterHazardsByDistance d hazards lat lng radiusKm).Forall
      (fun h => distKey h ≤ radiusKm ∧
        h.distance = some (d lat lng h.lat h.lng)) ∧
    sortedByDist (filterHazardsByDistance d hazards lat lng radiusKm) := by
  constructor
  · rw [List.forall_iff_forall_mem]
    intro x hx
    unfold filterHazardsByDistance at hx
    rw [(sortHazards_perm _).mem_iff] at hx
    obtain ⟨hmem, hpx⟩ := List.mem_filter.mp hx
    obtain ⟨h0, _, rfl⟩ := List.mem_map.mp hmem
    exact ⟨of_decide_eq_true hpx, rfl⟩
  · exact sortHazards_sorted _

theorem atan2_zero_one : atan2 0 1 = 0 := by
  unfold atan2
  rw [if_pos (by norm_num : (0:ℝ) < 1)]
  norm_num [Real.arctan_zero]

/-- C6: the Haversine distance (Earth radius 6371 km) is symmetric and is
zero on identical points. -/
theorem calculateDistance_symm_zero (lat1 lng1 lat2 lng2 : ℝ) :
    calculateDistance lat1 lng1 lat2 lng2 =
      calculateDistance lat2 lng2 lat1 lng1 ∧
    calculateDistance lat1 lng1 lat1 lng1 = 0 := by
  constructor
  · simp only [calculateDistance]
    have e1 : Real.sin ((lat1 - lat2) * Real.pi / 180 / 2) =
        -Real.sin ((lat2 - lat1) * Real.pi / 180 / 2) := by
      rw [show (lat1 - lat2) * Real.pi / 180 / 2 =
        -((lat2 - lat1) * Real.pi / 180 / 2) by ring, Real.sin_neg]
    have e2 : Real.sin ((lng1 - lng2) * Real.pi / 180 / 2) =
        -Real.sin ((lng2 - lng1) * Real.pi / 180 / 2) := by
      rw [show (lng1 - lng2) * Real.pi / 180 / 2 =
        -((lng2 - lng1) * Real.pi / 180 / 2) by ring, Real.sin_neg]
    have key : Real.sin ((lat1 - lat2) * Real.pi / 180 / 2) *
          Real.sin ((lat1 - lat2) * Real.pi / 180 / 2) +
        Real.cos (lat2 * Real.pi / 180) * Real.cos (lat1 * Real.pi / 180) *
          Real.sin ((lng1 - lng2) * Real.pi / 180 / 2) *
          Real.sin ((lng1 - lng2) * Real.pi / 180 / 2) =
        Real.sin ((lat2 - lat1) * Real.pi / 180 / 2) *
          Real.sin ((lat2 - lat1) * Real.pi / 180 / 2) +
        Real.cos (lat1 * Real.pi / 180) * Real.cos (lat2 * Real.pi / 180) *
          Real.sin ((lng2 - lng1) * Real.pi / 180 / 2) *
          Real.sin ((lng2 - lng1) * Real.pi / 180 / 2) := by
      rw [e1, e2]
      ring
    rw [key]
  · simp only [calculateDistance, sub_self, zero_mul, zero_div,
      Real.sin_zero, mul_zero, add_zero, zero_add, Real.sqrt_zero, sub_zero,
      Real.sqrt_one, atan2_zero_one]

theorem floatRange_chain (lo hi step : ℚ) :
    List.Chain' (fun a b => b - a = step) (floatRange lo hi step) := by
  rw [floatRange, List.chain'_iff_get]
  intro i h
  simp only [List.get_eq_getElem, List.getElem_map, List.getElem_range]
  push_cast
  ring

theorem mem_heatmapPoints {d : ℚ → ℚ → ℚ → ℚ → ℚ} {cosd : ℚ → ℚ}
    {centerLat centerLng radiusKm : ℚ} {pt : ℚ × ℚ}
    (hp : pt ∈ heatmapPoints d cosd centerLat centerLng radiusKm) :
    d centerLat centerLng pt.1 pt.2 ≤ radiusKm := by
  unfold heatmapPoints at hp
  obtain ⟨la, _, hla⟩ := List.mem_flatMap.mp hp
  obtain ⟨ln, _, hln⟩ := List.mem_filterMap.mp hla
  by_cases hd : d centerLat centerLng la ln ≤ radiusKm
  · rw [if_pos hd] at hln
    obtain rfl := Option.some_injective _ hln
    exact hd
  · rw [if_neg hd] at hln
    cases hln

/-- C7 (amended): for every center, radius and every value of the random
noise term, `getHeatmapData` returns only points whose intensity lies in
`[0, 100]` and whose distance from the center (as computed by the pipeline's
distance function `d`) is at most the radius; the grid uses a fixed
0.5-degree step in both latitude and longitude — the `cos(latitude)`
correction is applied to the longitude half-range, not to the longitude
step. -/
theorem heatmap_spec (d : ℚ → ℚ → ℚ → ℚ → ℚ) (cosd : ℚ → ℚ) (noise : ℕ → ℚ)
    (centerLat centerLng radiusKm : ℚ) :
    (getHeatmapData d cosd noise centerLat centerLng radiusKm).Forall
      (fun p => 0 ≤ p.2.2 ∧ p.2.2 ≤ 100 ∧
        d centerLat centerLng p.1 p.2.1 ≤ radiusKm) ∧
    List.Chain' (fun a b => b - a = 1/2) (heatmapLats centerLat radiusKm) ∧
    List.Chain' (fun a b => b - a = 1/2)
      (heatmapLngs cosd centerLat centerLng radiusKm) := by
  refine ⟨?_, floatRange_chain _ _ _, floatRange_chain _ _ _⟩
  rw [List.forall_iff_forall_mem]
  intro p hp
  unfold getHeatmapData at hp
  obtain ⟨ip, hip, rfl⟩ := List.mem_map.mp hp
  have hmem : ip.2 ∈ heatmapPoints d cosd centerLat centerLng radiusKm :=
    List.getElem?_mem (List.mem_enum_iff_getElem?.mp hip)
  exact ⟨le_min (by norm_num) (le_max_left 0 _), min_le_left _ _,
    mem_heatmapPoints hmem⟩

/-- C7 (counterexample): at latitude 60° (where the cosine of the latitude
is exactly 1/2, as the final conjunct certifies) and radius 55.5 km, the
claimed cos-corrected longitude step is `0.5 / cos(60°) = 1`, but the
longitude samples the code generates advance by the fixed step 0.5 — so the
grid does not use a cos-corrected longitude step. -/
theorem heatmap_lngStep_ce :
    heatmapLngs (fun _ => 1/2) 60 0 (111/2) = [-1, -1/2, 0, 1/2, 1] ∧
    specLngStep (fun _ => 1/2) 60 = 1 ∧
    ¬ List.Chain' (fun a b => b - a = specLngStep (fun _ => 1/2) 60)
        (heatmapLngs (fun _ => 1/2) 60 0 (111/2)) ∧
    Real.cos ((60 : ℝ) * Real.pi / 180) = 1/2 := by
  have hstep : specLngStep (fun _ => 1/2) 60 = 1 := by
    norm_num [specLngStep]
  have hval : heatmapLngs (fun _ => 1/2) 60 0 (111/2) = [-1, -1/2, 0, 1/2, 1] := by
    unfold heatmapLngs floatRange
    norm_num
    rw [show Int.toNat 5 = 5 from rfl,
      show List.range 5 = [0, 1, 2, 3, 4] from rfl]
    simp only [List.map_cons, List.map_nil]
    norm_num
  refine ⟨hval, hstep, ?_, ?_⟩
  · rw [hval, hstep]
    intro hch
    rw [List.chain'_cons] at hch
    have h := hch.1
    norm_num at h
  · rw [show (60 : ℝ) * Real.pi / 180 = Real.pi / 3 by ring]
    exact Real.cos_pi_div_three

theorem eraseVolatile_lat (h : Hazard) : (eraseVolatile h).lat = h.lat := by
  unfold eraseVolatile
  split <;> rfl

theorem eraseVolatile_lng (h : Hazard) : (eraseVolatile h).lng = h.lng := by
  unfold eraseVolatile
  split <;> rfl

theorem eraseVolatile_distance (h : Hazard) :
    (eraseVolatile h).distance = h.distance := by
  unfold eraseVolatile
  split <;> rfl

theorem distKey_erase (h : Hazard) : distKey (eraseVolatile h) = distKey h := by
  unfold distKey
  rw [eraseVolatile_distance]

theorem eraseVolatile_setDistance (h : Hazard) (v : Option ℚ) :
    eraseVolatile { h with distance := v } =
      { eraseVolatile h with distance := v } := by
  unfold eraseVolatile
  by_cases ht : (h.type == HazardType.weather) = true
  · rw [if_pos ht, if_pos ht]
  · rw [if_neg ht, if_neg ht]

theorem insertHazard_map_erase (x : Hazard) (l : List Hazard) :
    (insertHazard x l).map eraseVolatile =
      insertHazard (eraseVolatile x) (l.map eraseVolatile) := by
  induction l with
  | nil => rfl
  | cons b bs ih =>
    simp only [insertHazard, List.map_cons, distKey_erase]
    by_cases h : distKey b ≤ distKey x
    · rw [if_pos h, if_pos h, List.map_cons, ih]
    · rw [if_neg h, if_neg h, List.map_cons, List.map_cons]

theorem foldl_insert_map_erase (l acc : List Hazard) :
    (l.foldl (fun acc x => insertHazard x acc) acc).map eraseVolatile =
      (l.map eraseVolatile).foldl (fun acc x => insertHazard x acc)
        (acc.map eraseVolatile) := by
  induction l generalizing acc with
  | nil => rfl
  | cons x xs ih =>
    simp only [List.foldl_cons, List.map_cons, ih, insertHazard_map_erase]

theorem sortHazards_map_erase (l : List Hazard) :
    (sortHazards l).map eraseVolatile = sortHazards (l.map eraseVolatile) :=
  foldl_insert_map_erase l []

theorem annotate_filter_map_erase (d : ℚ → ℚ → ℚ → ℚ → ℚ)
    (lat lng radiusKm : ℚ) (hs : List Hazard) :
    ((hs.map (fun h =>
        { h with distance := some (d lat lng h.lat h.lng) })).filter
      (fun h => h.distance.getD 0 ≤ radiusKm)).map eraseVolatile =
      ((hs.map eraseVolatile).map (fun h =>
        { h with distance := some (d lat lng h.lat h.lng) })).filter
      (fun h => h.distance.getD 0 ≤ radiusKm) := by
  induction hs with
  | nil => rfl
  | cons h t ih =>
    simp only [List.map_cons, List.filter_cons, eraseVolatile_lat,
      eraseVolatile_lng, Option.getD_some, decide_eq_true_eq]
    by_cases hp : d lat lng h.lat h.lng ≤ radiusKm
    · rw [if_pos hp, if_pos hp, List.map_cons, eraseVolatile_setDistance, ih]
      simp only [eraseVolatile_lat, eraseVolatile_lng]
    · rw [if_neg hp, if_neg hp]
      exact ih

theorem filterHazardsByDistance_map_erase (d : ℚ → ℚ → ℚ → ℚ → ℚ)
    (hs : List Hazard) (lat lng radiusKm : ℚ) :
    (filterHazardsByDistance d hs lat lng radiusKm).map eraseVolatile =
      filterHazardsByDistance d (hs.map eraseVolatile) lat lng radiusKm := by
  unfold filterHazardsByDistance
  rw [sortHazards_map_erase, annotate_filter_map_erase]

theorem regionWeatherHazards_map_erase (t1 t2 : ℤ)
    (r : Except String (Option (List CityEntry))) :
    (regionWeatherHazards t1 r).map eraseVolatile =
      (regionWeatherHazards t2 r).map eraseVolatile := by
  rcases r with e | o
  · rfl
  rcases o with _ | cities
  · rfl
  simp only [regionWeatherHazards]
  by_cases hall : (cities.all fun c => !c.weather.isEmpty) = true
  · rw [if_pos hall, if_pos hall, List.map_map, List.map_map]
    rfl
  · rw [if_neg hall, if_neg hall]

theorem foldl_region_map_erase (t1 t2 : ℤ)
    (resps : List (Except String (Option (List CityEntry))))
    (acc1 acc2 : List Hazard)
    (hacc : acc1.map eraseVolatile = acc2.map eraseVolatile) :
    ((resps.foldl (fun acc r => acc ++ regionWeatherHazards t1 r)
        acc1).map eraseVolatile) =
      ((resps.foldl (fun acc r => acc ++ regionWeatherHazards t2 r)
        acc2).map eraseVolatile) := by
  induction resps generalizing acc1 acc2 with
  | nil => exact hacc
  | cons r rs ih =>
    refine ih _ _ ?_
    rw [List.map_append, List.map_append, hacc, regionWeatherHazards_map_erase t1 t2]

theorem fetchWeatherDisasters_map_erase (t1 t2 : ℤ)
    (resps : List (Except String (Option (List CityEntry)))) :
    (fetchWeatherDisasters t1 resps).map eraseVolatile =
      (fetchWeatherDisasters t2 resps).map eraseVolatile :=
  foldl_region_map_erase t1 t2 resps [] [] rfl

/-- C9 (amended): given identical mocked upstream feed responses, two calls
to `getHazardsNearLocation` with the same lat, lng, radius return results
identical in length, order and every field except the `id` and `timestamp`
fields of weather-type hazards, which embed the call's `Date.now()` clock
reading (`eraseVolatile` blanks exactly those two fields and only on
weather-type hazards, so this equality keeps every field of every
earthquake- and landslide-type hazard); with equal clock readings the
results are fully identical. -/
theorem getHazards_deterministic_mod_time (d : ℚ → ℚ → ℚ → ℚ → ℚ)
    (eqResp : Except String (Option (List EqFeature)))
    (wResps : List (Except String (Option (List CityEntry))))
    (lsResp : Except String (Option (List EonetEvent)))
    (t1 t2 : ℤ) (lat lng radiusKm : ℚ) :
    ((getHazardsNearLocation d eqResp wResps lsResp t1 lat lng
        radiusKm).map eraseVolatile =
      (getHazardsNearLocation d eqResp wResps lsResp t2 lat lng
        radiusKm).map eraseVolatile) ∧
    (t1 = t2 →
      getHazardsNearLocation d eqResp wResps lsResp t1 lat lng radiusKm =
        getHazardsNearLocation d eqResp wResps lsResp t2 lat lng radiusKm) := by
  constructor
  · unfold getHazardsNearLocation
    rw [filterHazardsByDistance_map_erase, filterHazardsByDistance_map_erase]
    congr 1
    rw [List.map_append, List.map_append, List.map_append, List.map_append,
      fetchWeatherDisasters_map_erase t1 t2]
  · intro h
    rw [h]

theorem getHazards_deterministic_mod_time_witness :
    ((getHazardsNearLocation dZero (Except.ok none)
        [Except.ok (some [rainCity])] (Except.ok none) 0 0 0 100).map
          eraseVolatile =
      (getHazardsNearLocation dZero (Except.ok none)
        [Except.ok (some [rainCity])] (Except.ok none) 1 0 0 100).map
          eraseVolatile) ∧
    getHazardsNearLocation dZero (Except.ok none)
        [Except.ok (some [rainCity])] (Except.ok none) 0 0 0 100 =
      getHazardsNearLocation dZero (Except.ok none)
        [Except.ok (some [rainCity])] (Except.ok none) 0 0 0 100 :=
  ⟨(getHazards_deterministic_mod_time dZero (Except.ok none)
      [Except.ok (some [rainCity])] (Except.ok none) 0 1 0 0 100).1,
    (getHazards_deterministic_mod_time dZero (Except.ok none)
      [Except.ok (some [rainCity])] (Except.ok none) 0 0 0 0 100).2 rfl⟩

/-- C9 (counterexample): with a mocked weather feed returning one rainy city
at the reference point, calls at clock readings 0 and 1 return hazards whose
id and timestamp differ, so the results are not identical in every field. -/
theorem getHazards_time_ce :
    getHazardsNearLocation dZero (Except.ok none)
      [Except.ok (some [rainCity])] (Except.ok none) 0 0 0 100 ≠
    getHazardsNearLocation dZero (Except.ok none)
      [Except.ok (some [rainCity])] (Except.ok none) 1 0 0 100 := by
  decide

end ResQMap
